import Mathlib

/-!
# Verification of the XPS streaming pipeline (`xps_changes`)

Shallow embedding of the core logic of the repository's source files

* `websockets.py`   — codec (`convert_to_uint8`, `pack_images`) and the
  broadcast publisher `XPSWSResultPublisher`;
* `tiled.py`        — the incremental store sink `TiledPublisher` and its
  patch helpers `patch_tiled_array` / `patch_tiiled_frame`;
* `xps_websocket_listener.py` — the resilient consumer
  `XPSWebSocketListener._handle_message`.

Numeric samples are modelled over `ℚ` (numpy floating point values, with
NaN production made explicit, see `NpError`); machine byte values are `ℕ`
reduced mod 256 where the code casts to `uint8`.  Stateful Python objects
become explicit state records with pure transition functions that also
return the externally visible effects (store writes, websocket sends,
log lines, emitted frame events).
-/

namespace XPS

/-! ## Numeric primitives (numpy operations used by `websockets.py`) -/

/-- A 2-D numeric sample (`np.ndarray` of floats), row major. -/
abbrev Image := List (List ℚ)

/-- One line of an integrated `(k, N)`-shaped array in `tiled.py`. -/
abbrev Row := List ℚ

/-- `astype(np.uint8)` on one element: C cast, truncation toward zero,
then reduction mod 2^8.  Only in-range values reach this cast in the code
(`[0, 255]` after scaling, or near-zero values on the all-close branch). -/
def toUint8 (x : ℚ) : ℕ :=
  ((x.num.tdiv (x.den : ℤ)) % 256).toNat

/-- `np.allclose(image, 0)` with numpy defaults `rtol = 1e-5`,
`atol = 1e-8`: every element satisfies `|a - 0| ≤ atol + rtol * |0|`. -/
def allcloseZero (image : Image) : Bool :=
  image.flatten.all fun x => decide (|x| ≤ 1 / 10 ^ 8)

/-- Errors surfaced by the numpy fragment we embed. -/
inductive NpError where
  /-- `min` / `max` of an empty array raise `ValueError` in numpy. -/
  | valueErrorEmpty : NpError
  /-- A `0 / 0` division (both normalisation steps divide by `max - min`).
  numpy does not raise here: it emits a `RuntimeWarning` and propagates NaN
  through every later step.  NaN has no counterpart in `ℚ`, so the embedding
  signals the NaN-derived result with this value. -/
  | nanProduced : NpError
  deriving Repr, DecidableEq

/-- `np.ndarray.min()` (flattened). -/
def npMin (l : List ℚ) : Except NpError ℚ :=
  match l with
  | [] => .error .valueErrorEmpty
  | x :: xs => .ok (xs.foldl min x)

/-- `np.ndarray.max()` (flattened). -/
def npMax (l : List ℚ) : Except NpError ℚ :=
  match l with
  | [] => .error .valueErrorEmpty
  | x :: xs => .ok (xs.foldl max x)

/-- Embedding of `convert_to_uint8` (`websockets.py`).  The transcendental
`np.log1p` has no computable counterpart over `ℚ`, so it is a parameter;
every theorem below holds for an arbitrary `log1p`.  Elementwise numpy
operations on the 2-D array act on its row-major flattening, which is also
the order `tobytes()` serialises. -/
def convert_to_uint8 (log1p : ℚ → ℚ) (image : Image) : Except NpError (List ℕ) :=
  if allcloseZero image then
    .ok (image.flatten.map toUint8)
  else
    match npMin image.flatten, npMax image.flatten with
    | .error e, _ => .error e
    | _, .error e => .error e
    | .ok mn, .ok mx =>
      if mx - mn = 0 then .error .nanProduced
      else
        let image_normalized := image.flatten.map fun x => (x - mn) / (mx - mn)
        let log_stretched := image_normalized.map log1p
        match npMin log_stretched, npMax log_stretched with
        | .error e, _ => .error e
        | _, .error e => .error e
        | .ok lmn, .ok lmx =>
          if lmx - lmn = 0 then .error .nanProduced
          else
            .ok ((log_stretched.map fun x => (x - lmn) / (lmx - lmn) * 255).map toUint8)

/-! ## Message schemas (`schemas.py`, as used by the inspected files)

`schemas.py` is not under inspection; the fields below are exactly those the
inspected files read.  Wrapper models (`SerializableNumpyArrayModel.array`,
`DataFrame.df`) are inlined: a field holds the array / the rows directly. -/

/-- One detected-peak row: position `x`, height `h`, width `fwhm`. -/
abbrev PeakRow := ℚ × ℚ × ℚ

/-- `XPSStart`: the run-start message. -/
structure XPSStart where
  scan_name : String
  deriving Repr, DecidableEq

/-- `XPSResult`: one frame of results. -/
structure XPSResult where
  frame_number : ℤ
  shot_num : ℤ
  integrated_frames : List Row
  vfft : List Row
  ifft : List Row
  shot_recent : Image
  shot_mean : Image
  shot_std : Image
  detected_peaks : List PeakRow
  deriving Repr, DecidableEq

/-- `XPSResultStop`: the run-stop message, carrying the timing table. -/
structure XPSResultStop where
  function_timings : List (List ℚ)
  deriving Repr, DecidableEq

/-- The closed union `XPSResult | XPSStart | XPSResultStop` dispatched on by
both publishers. -/
inductive XPSMessage where
  | start (m : XPSStart)
  | result (m : XPSResult)
  | stop (m : XPSResultStop)
  deriving Repr, DecidableEq

/-! ## Incremental store (`tiled.py`) -/

/-- A tiled `ArrayClient`: the slices of the growable leading axis.  A
position holds `none` when it was never written (a gap left by patching past
the end with `extend=True`); the leading-axis shape is `slices.length`. -/
structure ArrayClient (α : Type) where
  slices : List (Option α)
  deriving Repr, DecidableEq

/-- `ArrayClient.patch(rows, offset=offset, extend=True)`: writes `rows` at
positions `offset, …, offset + rows.length - 1` and extends the leading axis
to cover them; positions below `offset` keep their old value (or stay
unwritten). -/
def ArrayClient.patchExtend {α : Type} (c : ArrayClient α) (rows : List α)
    (offset : ℕ) : ArrayClient α :=
  ⟨(List.range (max c.slices.length (offset + rows.length))).map fun i =>
    if h : offset ≤ i ∧ i < offset + rows.length then
      some (rows.get ⟨i - offset, by omega⟩)
    else
      c.slices.getD i none⟩

/-- The offset and slice count of one `patch` call, recorded as an effect. -/
structure StorePatch where
  offset : ℕ
  numSlices : ℕ
  deriving Repr, DecidableEq

/-- `patch_tiiled_frame` (`tiled.py`, source spelling kept): appends the
sample as one new slice at `offset = shape[0]` (`array[None, :]` prepends a
leading axis of length 1). -/
def patch_tiiled_frame {α : Type} (array_client : ArrayClient α) (array : α) :
    ArrayClient α × StorePatch :=
  let offset := array_client.slices.length
  (array_client.patchExtend [array] offset, ⟨offset, 1⟩)

/-- `patch_tiled_array` (`tiled.py`): takes the last row of the incoming
array (`array[-1:]`) and patches it at `offset = shape[axis_to_increment] + 1`
with the default `axis_to_increment = 0`. -/
def patch_tiled_array (array_client : ArrayClient Row) (array : List Row) :
    ArrayClient Row × StorePatch :=
  let offset := array_client.slices.length + 1
  let rows := array.drop (array.length - 1)
  (array_client.patchExtend rows offset, ⟨offset, rows.length⟩)

/-- A tiled `DataFrameClient` holding a table entity: the log of dataframes
written to it (the creating write first, then one entry per append). -/
structure TableClient (ρ : Type) where
  writes : List (List ρ)
  deriving Repr, DecidableEq

/-- `append_table_node` (`tiled.py`): `table_node.append_partition(df, 0)`. -/
def append_table_node {ρ : Type} (table_node : TableClient ρ) (df : List ρ) :
    TableClient ρ :=
  ⟨table_node.writes ++ [df]⟩

/-- Store-side effects of one `TiledPublisher.publish` call, used to state
which writes a dispatch performs. -/
inductive StoreEffect where
  | createdRunContainer (name : String)
  | createdDataNodes
  | createdTableNode (name : String)
  | patchedArray (entity : String) (p : StorePatch)
  | appendedTable (entity : String)
  deriving Repr, DecidableEq

/-- `create_tiled_table_node` (`tiled.py`): if no child of that key exists
under the parent it creates the table node, writes the dataframe and returns
the new client; otherwise it creates nothing and returns `None` (the Python
function falls off the end).  The parent is represented by its child keys. -/
def create_tiled_table_node {ρ : Type} (parent_node : List String)
    (data_frame : List ρ) (name : String) :
    List String × Option (TableClient ρ) × List StoreEffect :=
  if name ∈ parent_node then (parent_node, none, [])
  else (parent_node ++ [name], some ⟨[data_frame]⟩, [.createdTableNode name])

/-- `TiledScan` (`tiled.py` dataclass): the cached per-run data clients.
`run_node` is the run container, represented by its child entity keys.
The `function_timings` field of the dataclass is never assigned by the
inspected code and is omitted. -/
structure TiledScan where
  run_node : List String
  integrated_frames : Option (ArrayClient Row) := none
  detected_peaks : Option (TableClient PeakRow) := none
  vfft : Option (ArrayClient Row) := none
  ifft : Option (ArrayClient Row) := none
  shot_sum : Option (ArrayClient Image) := none
  shot_mean : Option (ArrayClient Image) := none
  deriving Repr, DecidableEq

/-- `create_data_nodes` (`tiled.py`): called on the first frame of a run;
`write_array` creates each array entity with the frame's data (the shot
samples gain a leading axis of length 1 via `[None, :]`), and
`create_tiled_table_node` creates the `detected_peaks` table. -/
def create_data_nodes (tiled_scan : TiledScan) (message : XPSResult) :
    TiledScan × List StoreEffect :=
  let children := tiled_scan.run_node ++
    ["integrated_frames", "vfft", "ifft", "shot_sum", "shot_mean"]
  let t := create_tiled_table_node children message.detected_peaks "detected_peaks"
  ({ tiled_scan with
      run_node := t.1
      integrated_frames := some ⟨message.integrated_frames.map some⟩
      vfft := some ⟨message.vfft.map some⟩
      ifft := some ⟨message.ifft.map some⟩
      shot_sum := some ⟨[some message.shot_recent]⟩
      shot_mean := some ⟨[some message.shot_mean]⟩
      detected_peaks := t.2.1 },
   .createdDataNodes :: t.2.2)

/-- Python errors the store sink can raise. -/
inductive PyError where
  /-- attribute access on `None` (`AttributeError`). -/
  | attributeErrorNone : PyError
  deriving Repr, DecidableEq

/-- `TiledPublisher.update_tiled_scan` (`tiled.py`): patch every array
entity with the frame's data and append the peak rows to the table.  In
Python the cached clients are attributes that would be `None` only if
`create_data_nodes` had not run; reading them then raises. -/
def update_tiled_scan (scan : TiledScan) (message : XPSResult) :
    Except PyError (TiledScan × List StoreEffect) :=
  match scan.integrated_frames, scan.vfft, scan.ifft, scan.shot_sum,
      scan.shot_mean, scan.detected_peaks with
  | some intf, some vf, some itf, some ssum, some smean, some peaks =>
    let p1 := patch_tiled_array intf message.integrated_frames
    let p2 := patch_tiled_array vf message.vfft
    let p3 := patch_tiled_array itf message.ifft
    let p4 := patch_tiiled_frame ssum message.shot_recent
    let p5 := patch_tiiled_frame smean message.shot_mean
    let peaks2 := append_table_node peaks message.detected_peaks
    .ok ({ scan with
            integrated_frames := some p1.1
            vfft := some p2.1
            ifft := some p3.1
            shot_sum := some p4.1
            shot_mean := some p5.1
            detected_peaks := some peaks2 },
         [.patchedArray "integrated_frames" p1.2,
          .patchedArray "vfft" p2.2,
          .patchedArray "ifft" p3.2,
          .patchedArray "shot_sum" p4.2,
          .patchedArray "shot_mean" p5.2,
          .appendedTable "detected_peaks"])
  | _, _, _, _, _, _ => .error .attributeErrorNone

/-- `create_run_container` (`tiled.py`): idempotent-by-name creation of the
run container under the `runs` node (represented by its child names). -/
def create_run_container (client : List String) (name : String) : List String :=
  if name ∈ client then client else client ++ [name]

/-- The `TiledPublisher` instance state: the `runs` container it was built
with and the cached `current_tiled_scan` (initially `None`). -/
structure TiledPublisherState where
  runs_node : List String
  current_tiled_scan : Option TiledScan := none
  deriving Repr, DecidableEq

/-- `TiledPublisher.publish` (`tiled.py`).

* `XPSStart`: creates the run container and caches a fresh `TiledScan`
  (a re-used run name keeps the existing container node; the embedding
  tracks child keys per fresh run, which the inspected flows always use).
* `XPSResultStop`: `if not self.current_tiled_scan: return`; otherwise
  creates the one-shot `function_timings` table under the run node.
* `XPSResult`: reads `self.current_tiled_scan.integrated_frames`, which in
  Python raises `AttributeError` when `current_tiled_scan` is `None`; on the
  first frame (`integrated_frames is None`) it only creates the data nodes;
  afterwards it runs `update_tiled_scan`.

The fourth source branch (`raise KeyError` for an unsupported type) is
unreachable: `XPSMessage` is exactly the three supported types. -/
def TiledPublisher.publish (st : TiledPublisherState) (message : XPSMessage) :
    Except PyError (TiledPublisherState × List StoreEffect) :=
  match message with
  | .start m =>
    .ok ({ runs_node := create_run_container st.runs_node m.scan_name,
           current_tiled_scan := some { run_node := [] } },
         [.createdRunContainer m.scan_name])
  | .stop m =>
    match st.current_tiled_scan with
    | none => .ok (st, [])
    | some scan =>
      let t := create_tiled_table_node scan.run_node m.function_timings
        "function_timings"
      .ok ({ st with current_tiled_scan := some { scan with run_node := t.1 } },
           t.2.2)
  | .result m =>
    match st.current_tiled_scan with
    | none => .error .attributeErrorNone
    | some scan =>
      match scan.integrated_frames with
      | none =>
        let c := create_data_nodes scan m
        .ok ({ st with current_tiled_scan := some c.1 }, c.2)
      | some _ =>
        match update_tiled_scan scan m with
        | .error e => .error e
        | .ok (scan2, effs) =>
          .ok ({ st with current_tiled_scan := some scan2 }, effs)

/-! ## Broadcast publisher (`websockets.py`) -/

/-- `peaks_output` (`websockets.py`): renames the dataframe columns to
`x`, `h`, `fwhm` and converts the rows to records; the row content is
unchanged, and `PeakRow` already carries the three columns by position. -/
def peaks_output (peaks : List PeakRow) : List PeakRow :=
  peaks

/-- The msgpack map built by `pack_images` (`websockets.py`); the three
byte blobs come out of `convert_to_uint8`. -/
structure PackedImages where
  width : ℕ
  height : ℕ
  fitted : List PeakRow
  shot_num : ℤ
  shot_recent : Except NpError (List ℕ)
  shot_mean : Except NpError (List ℕ)
  shot_std : Except NpError (List ℕ)
  deriving Repr

/-- `pack_images` (`websockets.py`): `width`/`height` are
`shot_mean.array.shape[0]` / `shape[1]`. -/
def pack_images (log1p : ℚ → ℚ) (message : XPSResult) : PackedImages :=
  { width := message.shot_mean.length
    height := (message.shot_mean.headD []).length
    fitted := peaks_output message.detected_peaks
    shot_num := message.shot_num
    shot_recent := convert_to_uint8 log1p message.shot_recent
    shot_mean := convert_to_uint8 log1p message.shot_mean
    shot_std := convert_to_uint8 log1p message.shot_std }

/-- One message sent to one viewer over the websocket.  `json.dumps` text
payloads are modelled by their field content; the text/binary kind is the
constructor. -/
inductive WsSend where
  /-- `client.send(json.dumps(start_payload))`: the `XPSStart` dump plus the
  configured `tiled_url`. -/
  | startText (scan_name : String) (tiled_url : String)
  /-- the "basic info" text message sent before an image bundle. -/
  | resultText (frame_number shot_num : ℤ) (tiled_url : String)
      (scan_name : Option String)
  /-- the binary msgpack image bundle. -/
  | imageBinary (b : PackedImages)

/-- `XPSWSResultPublisher` instance state: the set of connected viewers
(listed in iteration order) and the cached start snapshot. -/
structure WSState where
  connected_clients : List ℕ
  current_start_message : Option XPSStart := none

/-- `XPSWSResultPublisher.publish_ws` (`websockets.py`) for one client:

* `XPSResultStop`: clears `current_start_message` and sends nothing;
* `XPSStart`: caches the snapshot, then sends the start payload
  (the `tiled_url` field comes from `app_settings.tiled_uri`, passed in as
  `tiled_uri` since the configuration file is outside the inspected code);
* `XPSResult`: sends the basic-info text message (scan name from the
  snapshot, or `None` when no start was seen), then the binary bundle. -/
def publish_ws (log1p : ℚ → ℚ) (tiled_uri : String) (st : WSState)
    (client : ℕ) (message : XPSMessage) : WSState × List (ℕ × WsSend) :=
  match message with
  | .stop _ => ({ st with current_start_message := none }, [])
  | .start m =>
    ({ st with current_start_message := some m },
     [(client, .startText m.scan_name tiled_uri)])
  | .result m =>
    (st,
     [(client, .resultText m.frame_number m.shot_num tiled_uri
         (st.current_start_message.map fun s => s.scan_name)),
      (client, .imageBinary (pack_images log1p m))])

/-- `XPSWSResultPublisher.publish` (`websockets.py`): only if clients are
connected does it fan `publish_ws` out over them with `asyncio.gather`.
The embedding serialises the gather in client order: the per-client
two-message order is preserved, and the only shared mutation
(`current_start_message`) is set to the same value by every branch of one
event, so the serialisation order is immaterial. -/
def XPSWSResultPublisher.publish (log1p : ℚ → ℚ) (tiled_uri : String)
    (st : WSState) (message : XPSMessage) : WSState × List (ℕ × WsSend) :=
  if st.connected_clients = [] then (st, [])
  else
    st.connected_clients.foldl
      (fun acc c =>
        let r := publish_ws log1p tiled_uri acc.1 c message
        (r.1, acc.2 ++ r.2))
      (st, [])

/-! ## Resilient consumer (`xps_websocket_listener.py`) -/

/-- `XPSWebSocketListener` session state (`current_scan_name` and
`current_tiled_url` start as Python `None`). -/
structure ListenerState where
  current_scan_name : Option String := none
  current_tiled_url : Option String := none
  frame_counter : ℕ := 0
  deriving Repr, DecidableEq

/-- A parsed JSON text message, by the keys `_handle_message` reads:
whether `msg_type` equals `"start"`, the optional `scan_name` and
`tiled_url` values, and whether a `frame_number` key is present. -/
structure XPSTextMsg where
  msg_type_is_start : Bool
  scan_name : Option String := none
  tiled_url : Option String := none
  has_frame_number : Bool := false
  deriving Repr, DecidableEq

/-- An unpacked msgpack binary message, by the keys read: the `shot_mean`
byte blob and the integer fields, each possibly absent. -/
structure XPSBinMsg where
  shot_mean : Option (List ℕ) := none
  width : Option ℕ := none
  height : Option ℕ := none
  shot_num : Option ℤ := none
  deriving Repr, DecidableEq

/-- A received websocket message: `str` (JSON metadata) or `bytes`
(msgpack image bundle). -/
inductive WsInMsg where
  | text (m : XPSTextMsg)
  | binary (m : XPSBinMsg)
  deriving Repr, DecidableEq

/-- `np.frombuffer(..., dtype=np.uint8).reshape(width, height)`: the byte
data with its 2-D shape. -/
structure Uint8Array2D where
  rows : ℕ
  cols : ℕ
  data : List ℕ
  deriving Repr, DecidableEq

/-- `RawFrameEvent` (arroyosas schema) as constructed by the listener:
the wrapped image, the frame number, and the locator `tiled_url`. -/
structure RawFrameEvent where
  image : Uint8Array2D
  frame_number : ℕ
  tiled_url : String
  deriving Repr, DecidableEq

/-- Python `f"{v}"` on a value that may be `None`. -/
def pyStr : Option String → String
  | none => "None"
  | some s => s

/-- Exceptions `_handle_message` can raise (caught and logged by the
receive loop in `start`). -/
inductive ListenerError where
  /-- `reshape` raises `ValueError` when the byte count differs from
  `width * height`. -/
  | reshapeValueError : ListenerError
  deriving Repr, DecidableEq

/-- The warning logged when a binary message misses required fields. -/
def warnNoShotMean : String :=
  "Received XPS message without shot_mean data"

/-- `XPSWebSocketListener._handle_message` (`xps_websocket_listener.py`).
Returns the new session state, the frame event passed to
`operator.process` (if any), and the warnings logged.

* text with `msg_type == "start"`: resets the session state
  (`data.get` with default `""`), `frame_counter := 0`;
* text with a `frame_number` key: updates `tiled_url` / `scan_name` when
  present, keeping the current values otherwise;
* other text: metadata only, nothing changes;
* binary: `shot_mean`/`width`/`height` are fetched with `data.get`; a
  missing, empty or zero value fails the Python truthiness guard
  (`if not shot_mean_bytes or not width or not height`) and the message is
  logged and discarded; otherwise the buffer is reshaped to
  `(width, height)`, the locator is built from the current session state
  and `frame_counter`, the event carries the prior `frame_counter`, and the
  counter is incremented. -/
def handle_message (st : ListenerState) (message : WsInMsg) :
    Except ListenerError (ListenerState × Option RawFrameEvent × List String) :=
  match message with
  | .text m =>
    if m.msg_type_is_start then
      .ok ({ current_scan_name := some (m.scan_name.getD "")
             current_tiled_url := some (m.tiled_url.getD "")
             frame_counter := 0 }, none, [])
    else if m.has_frame_number then
      .ok ({ st with
             current_tiled_url := m.tiled_url.or st.current_tiled_url
             current_scan_name := m.scan_name.or st.current_scan_name },
           none, [])
    else
      .ok (st, none, [])
  | .binary m =>
    match m.shot_mean, m.width, m.height with
    | some bytes, some width, some height =>
      if bytes.isEmpty || width = 0 || height = 0 then
        .ok (st, none, [warnNoShotMean])
      else if bytes.length = width * height then
        let shot_mean : Uint8Array2D := ⟨width, height, bytes⟩
        let tiled_url :=
          pyStr st.current_tiled_url ++ "/api/v1/array/full/runs/" ++
          pyStr st.current_scan_name ++ "/shot_mean?slice=" ++
          toString st.frame_counter ++ ":" ++
          toString (st.frame_counter + 1) ++ ",0:" ++
          toString height ++ ",0:" ++ toString width
        let frame_event : RawFrameEvent :=
          ⟨shot_mean, st.frame_counter, tiled_url⟩
        .ok ({ st with frame_counter := st.frame_counter + 1 },
             some frame_event, [])
      else
        .error .reshapeValueError
    | _, _, _ => .ok (st, none, [warnNoShotMean])

/-! ## Run dispatcher (spec-modelled) -/

/-- The combined state of the dispatcher and its two registered sinks. -/
structure DispatcherState where
  tiled : TiledPublisherState
  ws : WSState
  seenFirstFrame : Bool := false

/-- Per-sink isolation for the store sink: a sink failure is logged and
does not block the event (spec §4.2/§4.3); the pure embedding performs no
mutation before a raise, so an error leaves the state unchanged. -/
def deliverTiled (st : TiledPublisherState) (message : XPSMessage) :
    TiledPublisherState × List StoreEffect :=
  match TiledPublisher.publish st message with
  | .ok r => r
  | .error _ => (st, [])

/-- Modelled from the spec: the Run Dispatcher — the `XPSOperator` of
`pipeline/xps_operator.py`, which is not among the inspected source files;
only its registration by `processor_cli.py` is.  Per spec §4.3 it fans each
event out to the store sink and the broadcast sink, except that the first
`Result` after a `Start` only performs entity creation on the store sink
and is not forwarded to the broadcast sink (the one-frame warm-up):
"if this is the first Frame of the run, calls `ensure_entities` and returns
(no broadcast/store append yet)". -/
def dispatch (log1p : ℚ → ℚ) (tiled_uri : String) (st : DispatcherState)
    (message : XPSMessage) :
    DispatcherState × List StoreEffect × List (ℕ × WsSend) :=
  match message with
  | .start _ =>
    let t := deliverTiled st.tiled message
    let w := XPSWSResultPublisher.publish log1p tiled_uri st.ws message
    (⟨t.1, w.1, false⟩, t.2, w.2)
  | .result _ =>
    if st.seenFirstFrame then
      let t := deliverTiled st.tiled message
      let w := XPSWSResultPublisher.publish log1p tiled_uri st.ws message
      (⟨t.1, w.1, true⟩, t.2, w.2)
    else
      let t := deliverTiled st.tiled message
      (⟨t.1, st.ws, true⟩, t.2, [])
  | .stop _ =>
    let t := deliverTiled st.tiled message
    let w := XPSWSResultPublisher.publish log1p tiled_uri st.ws message
    (⟨t.1, w.1, st.seenFirstFrame⟩, t.2, w.2)

/-- A small concrete frame used to evaluate the publishers on explicit
inputs. -/
def sampleFrame : XPSResult :=
  { frame_number := 0
    shot_num := 10
    integrated_frames := [[1, 2]]
    vfft := [[1, 2]]
    ifft := [[1, 2]]
    shot_recent := [[1, 2], [3, 4]]
    shot_mean := [[1, 2], [3, 4]]
    shot_std := [[1, 2], [3, 4]]
    detected_peaks := [(1, 2, 3)] }

/-- A second concrete frame (same shapes as `sampleFrame`), used as the
frame that follows the warm-up frame in the Start/Result/Result scenario. -/
def sampleFrame2 : XPSResult :=
  { frame_number := 1
    shot_num := 11
    integrated_frames := [[5, 6]]
    vfft := [[5, 6]]
    ifft := [[5, 6]]
    shot_recent := [[5, 6], [7, 8]]
    shot_mean := [[5, 6], [7, 8]]
    shot_std := [[5, 6], [7, 8]]
    detected_peaks := [(4, 5, 6)] }

/-- The combined state before any event: fresh publishers over a `runs`
container, `vs` viewers connected, no frame seen. -/
def initialState (runs : List String) (vs : List ℕ) : DispatcherState :=
  ⟨⟨runs, none⟩, ⟨vs, none⟩, false⟩

end XPS

namespace XPS

/-! ## Theorems -/

/-- Claim C1 (code_bug).  The append-offset invariant fails on
`patch_tiled_array`: on a freshly created entity of leading length 1 the
first append is patched at offset `shape[0] + 1 = 2` instead of the current
length 1, so index 1 is left an unwritten gap and the length jumps to 3
instead of 2.  The sibling path `patch_tiiled_frame` patches at
`offset = shape[0]` and does satisfy the invariant. -/
theorem C1_append_offset_bug :
    (patch_tiled_array ⟨[some [1, 2]]⟩ [[3, 4]]).2.offset = 2 ∧
    (⟨[some [1, 2]]⟩ : ArrayClient Row).slices.length = 1 ∧
    (patch_tiled_array ⟨[some [1, 2]]⟩ [[3, 4]]).2.offset ≠
      (⟨[some [1, 2]]⟩ : ArrayClient Row).slices.length ∧
    (patch_tiled_array ⟨[some [1, 2]]⟩ [[3, 4]]).1.slices =
      [some [1, 2], none, some [3, 4]] ∧
    (patch_tiiled_frame (⟨[some [1, 2]]⟩ : ArrayClient Row) [3, 4]).2.offset =
      (⟨[some [1, 2]]⟩ : ArrayClient Row).slices.length ∧
    (patch_tiiled_frame (⟨[some [1, 2]]⟩ : ArrayClient Row) [3, 4]).1.slices =
      [some [1, 2], some [3, 4]] := by
  refine ⟨rfl, rfl, by decide, ?_, rfl, ?_⟩ <;> rfl

/-- Claim C2 (code_bug).  A Result delivered while no Start has been
processed is not ignored with a warning: the store sink dereferences the
`None` run context and raises `AttributeError`, and the broadcast sink
still sends the two-part message (with a `None` scan name) to each
connected viewer. -/
theorem C2_result_while_idle_not_ignored :
    TiledPublisher.publish ⟨[], none⟩ (.result sampleFrame) =
      .error .attributeErrorNone ∧
    (XPSWSResultPublisher.publish id "http://tiled" ⟨[7], none⟩
        (.result sampleFrame)).2 =
      [(7, .resultText 0 10 "http://tiled" none),
       (7, .imageBinary (pack_images id sampleFrame))] :=
  ⟨rfl, rfl⟩

/-- Claim C8 (confirmed).  A text message carrying the start marker resets
the whole session state from the message — for every prior state, hence
after any number of reconnects and for any prior counter value. -/
theorem C8_start_resets_session (st : ListenerState) (m : XPSTextMsg)
    (hstart : m.msg_type_is_start = true) (sn u : String)
    (hs : m.scan_name = some sn) (hu : m.tiled_url = some u) :
    handle_message st (.text m) = .ok (⟨some sn, some u, 0⟩, none, []) := by
  simp [handle_message, hstart, hs, hu]

/-- Claim C8 witness: a mid-session state with a nonzero counter is fully
reset by a fresh start header. -/
theorem C8_start_resets_session_witness :
    handle_message ⟨some "old-scan", some "http://old", 7⟩
        (.text ⟨true, some "scan-1", some "http://tiled", false⟩) =
      .ok (⟨some "scan-1", some "http://tiled", 0⟩, none, []) :=
  C8_start_resets_session _ _ rfl _ _ rfl rfl

/-- Claim C9 (confirmed).  A binary message with `shot_mean`, `width` or
`height` absent is logged and discarded: no frame event is emitted, the
session state is unchanged, and no exception escapes (the receive loop
continues). -/
theorem C9_missing_fields_discarded (st : ListenerState) (m : XPSBinMsg)
    (h : m.shot_mean = none ∨ m.width = none ∨ m.height = none) :
    handle_message st (.binary m) = .ok (st, none, [warnNoShotMean]) := by
  rcases m with ⟨sm, w, ht, sn⟩
  rcases sm with _ | sm <;> rcases w with _ | w <;> rcases ht with _ | ht <;>
    simp_all [handle_message]

/-- Claim C9 witness: a binary message missing `shot_mean` is discarded
without touching the session state. -/
theorem C9_missing_fields_discarded_witness :
    handle_message ⟨some "scan-1", some "http://tiled", 3⟩
        (.binary ⟨none, some 2, some 2, some 5⟩) =
      .ok (⟨some "scan-1", some "http://tiled", 3⟩, none, [warnNoShotMean]) :=
  C9_missing_fields_discarded _ _ (Or.inl rfl)

/-- Claim C10 (confirmed).  A Stop dispatched while no run context exists is
a no-op on the store sink: the guard `if not self.current_tiled_scan` returns
before any write, no timing table is created, no error is raised and the
state is unchanged. -/
theorem C10_stop_while_idle_noop (st : TiledPublisherState) (m : XPSResultStop)
    (h : st.current_tiled_scan = none) :
    TiledPublisher.publish st (.stop m) = .ok (st, []) := by
  simp [TiledPublisher.publish, h]

/-- Claim C10 witness: a Stop on a freshly constructed publisher. -/
theorem C10_stop_while_idle_noop_witness :
    TiledPublisher.publish ⟨["other-run"], none⟩ (.stop ⟨[[1, 2]]⟩) =
      .ok (⟨["other-run"], none⟩, []) :=
  C10_stop_while_idle_noop _ _ rfl

/-- Claim C4 (confirmed).  For every binary message the consumer accepts
(present and nonempty/nonzero `shot_mean`/`width`/`height`, and a byte count
matching `width * height` so the reshape succeeds), the emitted locator is
exactly
`<base>/api/v1/array/full/runs/<scan>/shot_mean?slice=<n>:<n+1>,0:<height>,0:<width>`
with `n` the value of `frame_counter` before the emission, the event's
`frame_number` is that same prior `n`, and the counter is incremented by
exactly one — so frame numbers are strictly increasing per session. -/
theorem C4_locator_and_counter (st : ListenerState) (m : XPSBinMsg)
    (bytes : List ℕ) (width height : ℕ) (base scan : String)
    (hsm : m.shot_mean = some bytes) (hw : m.width = some width)
    (hh : m.height = some height)
    (hb : bytes ≠ []) (hw0 : width ≠ 0) (hh0 : height ≠ 0)
    (hlen : bytes.length = width * height)
    (hurl : st.current_tiled_url = some base)
    (hscan : st.current_scan_name = some scan) :
    handle_message st (.binary m) =
      .ok ({ st with frame_counter := st.frame_counter + 1 },
           some ⟨⟨width, height, bytes⟩, st.frame_counter,
             base ++ "/api/v1/array/full/runs/" ++ scan ++
             "/shot_mean?slice=" ++ toString st.frame_counter ++ ":" ++
             toString (st.frame_counter + 1) ++ ",0:" ++ toString height ++
             ",0:" ++ toString width⟩,
           []) := by
  simp [handle_message, hsm, hw, hh, hlen, hurl, hscan, hw0, hh0, pyStr,
    List.isEmpty_iff, hb]

/-- Claim C4 witness: with `frame_counter = 3`, base `http://t`, scan `s1`,
a 2×3 image yields the locator addressing slice `3:4` and frame number 3,
and the counter advances to 4. -/
theorem C4_locator_and_counter_witness :
    handle_message ⟨some "s1", some "http://t", 3⟩
        (.binary ⟨some [7, 7, 7, 7, 7, 7], some 2, some 3, some 11⟩) =
      .ok (⟨some "s1", some "http://t", 4⟩,
           some ⟨⟨2, 3, [7, 7, 7, 7, 7, 7]⟩, 3,
             "http://t/api/v1/array/full/runs/s1/shot_mean?slice=3:4,0:3,0:2"⟩,
           []) :=
  C4_locator_and_counter ⟨some "s1", some "http://t", 3⟩ _ [7, 7, 7, 7, 7, 7]
    2 3 "http://t" "s1" rfl rfl rfl (by decide) (by decide) (by decide)
    (by decide) rfl rfl

/-- `astype(np.uint8)` sends an exact zero to the zero byte. -/
theorem toUint8_zero : toUint8 0 = 0 := by
  simp [toUint8, Int.zero_emod]

/-- Mapping the uint8 cast over an all-zero list yields the zero-filled
list of the same length. -/
theorem map_toUint8_all_zero (l : List ℚ) (h : ∀ x ∈ l, x = 0) :
    l.map toUint8 = List.replicate l.length 0 := by
  induction l with
  | nil => rfl
  | cons a t ih =>
    have ha : a = 0 := h a (by simp)
    rw [List.map_cons, List.length_cons, List.replicate_succ, ha, toUint8_zero,
      ih fun x hx => h x (by simp [hx])]

/-- Claim C6 (confirmed).  On an all-zero 2-D sample, `convert_to_uint8`
takes the `np.allclose(image, 0)` branch and returns the zero-filled byte
buffer with one byte per input element, raising nothing — for every
`log1p`, which that branch never calls. -/
theorem C6_all_zero_sample (log1p : ℚ → ℚ) (image : Image)
    (h : ∀ r ∈ image, ∀ x ∈ r, x = 0) :
    convert_to_uint8 log1p image =
      .ok (List.replicate image.flatten.length 0) := by
  have hz : ∀ x ∈ image.flatten, x = 0 := by
    intro x hx
    rcases List.mem_flatten.mp hx with ⟨r, hr, hxr⟩
    exact h r hr x hxr
  have hall : allcloseZero image = true := by
    unfold allcloseZero
    rw [List.all_eq_true]
    intro x hx
    rw [hz x hx]
    norm_num
  unfold convert_to_uint8
  rw [hall]
  simp only [if_true]
  exact congrArg Except.ok (map_toUint8_all_zero _ hz)

/-- Claim C6 witness: a 2×2 all-zero sample encodes to four zero bytes. -/
theorem C6_all_zero_sample_witness :
    convert_to_uint8 id [[0, 0], [0, 0]] = .ok (List.replicate 4 0) :=
  C6_all_zero_sample id [[0, 0], [0, 0]] (by
    intro r hr x hx
    simp only [List.mem_cons, List.not_mem_nil, or_false] at hr
    rcases hr with rfl | rfl <;> simpa using hx)

/-- Claim C7 (code_bug).  On an all-constant nonzero sample (any constant of
magnitude above the `allclose` tolerance), neither normalisation step is
guarded: `image.max() - image.min() = 0` and the first normalisation divides
by it, which in numpy produces NaN (a RuntimeWarning, not an exception) and
propagates it into the returned buffer.  The embedding signals that
NaN-derived result as `.nanProduced`; the theorem holds for every `log1p`,
which is never reached. -/
theorem C7_constant_input_nan (log1p : ℚ → ℚ) :
    convert_to_uint8 log1p [[5, 5], [5, 5]] = .error .nanProduced := by
  norm_num [convert_to_uint8, allcloseZero, npMin, npMax, min_self, max_self]

/-- The `publish` fan-out on a Stop event: every `publish_ws` call clears the
snapshot and sends nothing, so folding over any client list clears it once
the list is nonempty and accumulates no sends. -/
theorem foldl_publish_ws_stop (log1p : ℚ → ℚ) (tiled_uri : String)
    (m : XPSResultStop) (cs : List ℕ) (st : WSState)
    (acc : List (ℕ × WsSend)) :
    cs.foldl
      (fun acc c =>
        let r := publish_ws log1p tiled_uri acc.1 c (.stop m)
        (r.1, acc.2 ++ r.2))
      (st, acc) =
      ((if cs = [] then st else { st with current_start_message := none }),
       acc) := by
  induction cs generalizing st acc with
  | nil => rfl
  | cons c t ih =>
    rw [List.foldl_cons]
    show t.foldl _ ({ st with current_start_message := none }, acc ++ []) = _
    rw [List.append_nil, ih]
    by_cases ht : t = [] <;> simp [ht]

/-- The `publish` fan-out on a Start event: every `publish_ws` call caches
the same snapshot and sends the start payload to its client. -/
theorem foldl_publish_ws_start (log1p : ℚ → ℚ) (tiled_uri : String)
    (m : XPSStart) (cs : List ℕ) (st : WSState)
    (acc : List (ℕ × WsSend)) :
    cs.foldl
      (fun acc c =>
        let r := publish_ws log1p tiled_uri acc.1 c (.start m)
        (r.1, acc.2 ++ r.2))
      (st, acc) =
      ((if cs = [] then st else { st with current_start_message := some m }),
       acc ++ cs.map fun c => (c, WsSend.startText m.scan_name tiled_uri)) := by
  induction cs generalizing st acc with
  | nil => simp
  | cons c t ih =>
    rw [List.foldl_cons]
    show t.foldl _ ({ st with current_start_message := some m },
      acc ++ [(c, WsSend.startText m.scan_name tiled_uri)]) = _
    rw [ih]
    by_cases ht : t = [] <;> simp [ht]

/-- The `publish` fan-out on a Result event: `publish_ws` leaves the state
unchanged and sends the text metadata then the binary bundle per client. -/
theorem foldl_publish_ws_result (log1p : ℚ → ℚ) (tiled_uri : String)
    (f : XPSResult) (cs : List ℕ) (st : WSState)
    (acc : List (ℕ × WsSend)) :
    cs.foldl
      (fun acc c =>
        let r := publish_ws log1p tiled_uri acc.1 c (.result f)
        (r.1, acc.2 ++ r.2))
      (st, acc) =
      (st, acc ++ cs.flatMap fun c =>
        [(c, WsSend.resultText f.frame_number f.shot_num tiled_uri
            (st.current_start_message.map fun s => s.scan_name)),
         (c, WsSend.imageBinary (pack_images log1p f))]) := by
  induction cs generalizing acc with
  | nil => simp
  | cons c t ih =>
    rw [List.foldl_cons]
    show t.foldl _ (st, acc ++ _) = _
    rw [ih]
    simp [publish_ws]

/-- Claim C5 counterexample: with zero connected viewers the
`if self.connected_clients` guard skips `publish_ws` entirely, so a Stop
does not clear the cached start snapshot — refuting the claim's
"regardless of how many viewers are currently connected (including
zero)". -/
theorem C5_zero_viewers_snapshot_kept :
    (XPSWSResultPublisher.publish id "http://tiled" ⟨[], some ⟨"scan-1"⟩⟩
        (.stop ⟨[]⟩)).1.current_start_message = some ⟨"scan-1"⟩ ∧
    some (⟨"scan-1"⟩ : XPSStart) ≠ none :=
  ⟨rfl, by simp⟩

/-- Claim C5 (corrected).  A Stop event clears the cached start snapshot and
sends nothing, leaving the rest of the state (the viewer set) unchanged —
but only when at least one viewer is connected; with zero viewers the guard
in `publish` skips `publish_ws` and the whole call is a no-op, so the
snapshot keeps its previous value. -/
theorem C5_stop_clears_snapshot (log1p : ℚ → ℚ) (tiled_uri : String)
    (st : WSState) (m : XPSResultStop) :
    XPSWSResultPublisher.publish log1p tiled_uri st (.stop m) =
      ((if st.connected_clients = [] then st
        else { st with current_start_message := none }), []) := by
  unfold XPSWSResultPublisher.publish
  by_cases h : st.connected_clients = []
  · simp [h]
  · rw [if_neg h, foldl_publish_ws_stop, if_neg h]

/-- Claim C3 (confirmed; the dispatcher is spec-modelled, see `dispatch`).
For the event sequence Start, Result(frame 0), Result(frame 1) with at
least one connected viewer: processing the first Result only creates the
store entities — no slice is patched and the broadcast server sends zero
messages — while for frame 1 each of the five array entities receives
exactly one one-slice append, the peak table one partition, and each
connected viewer exactly two messages, the text metadata before the binary
payload. -/
theorem C3_warmup_scenario (log1p : ℚ → ℚ) (uri : String)
    (runs : List String) (m : XPSStart) (f0 f1 : XPSResult) (vs : List ℕ)
    (hvs : vs ≠ []) (hint : f1.integrated_frames ≠ [])
    (hvf : f1.vfft ≠ []) (hif : f1.ifft ≠ []) :
    (dispatch log1p uri
        ((dispatch log1p uri (initialState runs vs) (.start m)).1)
        (.result f0)).2.1 =
      [.createdDataNodes, .createdTableNode "detected_peaks"] ∧
    (dispatch log1p uri
        ((dispatch log1p uri (initialState runs vs) (.start m)).1)
        (.result f0)).2.2 = [] ∧
    (dispatch log1p uri
        ((dispatch log1p uri
            ((dispatch log1p uri (initialState runs vs) (.start m)).1)
            (.result f0)).1)
        (.result f1)).2.1 =
      [.patchedArray "integrated_frames" ⟨f0.integrated_frames.length + 1, 1⟩,
       .patchedArray "vfft" ⟨f0.vfft.length + 1, 1⟩,
       .patchedArray "ifft" ⟨f0.ifft.length + 1, 1⟩,
       .patchedArray "shot_sum" ⟨1, 1⟩,
       .patchedArray "shot_mean" ⟨1, 1⟩,
       .appendedTable "detected_peaks"] ∧
    (dispatch log1p uri
        ((dispatch log1p uri
            ((dispatch log1p uri (initialState runs vs) (.start m)).1)
            (.result f0)).1)
        (.result f1)).2.2 =
      vs.flatMap fun c =>
        [(c, .resultText f1.frame_number f1.shot_num uri (some m.scan_name)),
         (c, .imageBinary (pack_images log1p f1))] := by
  have hdrop : ∀ l : List Row, l ≠ [] → (l.drop (l.length - 1)).length = 1 := by
    intro l hl
    have := List.length_pos.mpr hl
    rw [List.length_drop]
    omega
  have hstep1 : dispatch log1p uri (initialState runs vs) (.start m) =
      (⟨⟨create_run_container runs m.scan_name,
          some ⟨[], none, none, none, none, none, none⟩⟩,
        ⟨vs, some m⟩, false⟩,
       [.createdRunContainer m.scan_name],
       vs.map fun c => (c, .startText m.scan_name uri)) := by
    unfold initialState dispatch deliverTiled TiledPublisher.publish
      XPSWSResultPublisher.publish
    rw [if_neg hvs, foldl_publish_ws_start, if_neg hvs]
    rfl
  have hstep2 : dispatch log1p uri
      (⟨⟨create_run_container runs m.scan_name,
          some ⟨[], none, none, none, none, none, none⟩⟩,
        ⟨vs, some m⟩, false⟩ : DispatcherState)
      (.result f0) =
      (⟨⟨create_run_container runs m.scan_name,
          some ⟨["integrated_frames", "vfft", "ifft", "shot_sum", "shot_mean",
              "detected_peaks"],
            some ⟨f0.integrated_frames.map some⟩,
            some ⟨[f0.detected_peaks]⟩,
            some ⟨f0.vfft.map some⟩,
            some ⟨f0.ifft.map some⟩,
            some ⟨[some f0.shot_recent]⟩,
            some ⟨[some f0.shot_mean]⟩⟩⟩,
        ⟨vs, some m⟩, true⟩,
       [.createdDataNodes, .createdTableNode "detected_peaks"],
       []) := rfl
  have hstep3a : (dispatch log1p uri
      (⟨⟨create_run_container runs m.scan_name,
          some ⟨["integrated_frames", "vfft", "ifft", "shot_sum", "shot_mean",
              "detected_peaks"],
            some ⟨f0.integrated_frames.map some⟩,
            some ⟨[f0.detected_peaks]⟩,
            some ⟨f0.vfft.map some⟩,
            some ⟨f0.ifft.map some⟩,
            some ⟨[some f0.shot_recent]⟩,
            some ⟨[some f0.shot_mean]⟩⟩⟩,
        ⟨vs, some m⟩, true⟩ : DispatcherState)
      (.result f1)).2.1 =
      [.patchedArray "integrated_frames"
         ⟨(f0.integrated_frames.map some).length + 1,
          (f1.integrated_frames.drop (f1.integrated_frames.length - 1)).length⟩,
       .patchedArray "vfft"
         ⟨(f0.vfft.map some).length + 1,
          (f1.vfft.drop (f1.vfft.length - 1)).length⟩,
       .patchedArray "ifft"
         ⟨(f0.ifft.map some).length + 1,
          (f1.ifft.drop (f1.ifft.length - 1)).length⟩,
       .patchedArray "shot_sum" ⟨1, 1⟩,
       .patchedArray "shot_mean" ⟨1, 1⟩,
       .appendedTable "detected_peaks"] := rfl
  have hstep3b : (dispatch log1p uri
      (⟨⟨create_run_container runs m.scan_name,
          some ⟨["integrated_frames", "vfft", "ifft", "shot_sum", "shot_mean",
              "detected_peaks"],
            some ⟨f0.integrated_frames.map some⟩,
            some ⟨[f0.detected_peaks]⟩,
            some ⟨f0.vfft.map some⟩,
            some ⟨f0.ifft.map some⟩,
            some ⟨[some f0.shot_recent]⟩,
            some ⟨[some f0.shot_mean]⟩⟩⟩,
        ⟨vs, some m⟩, true⟩ : DispatcherState)
      (.result f1)).2.2 =
      vs.flatMap fun c =>
        [(c, .resultText f1.frame_number f1.shot_num uri (some m.scan_name)),
         (c, .imageBinary (pack_images log1p f1))] := by
    show (XPSWSResultPublisher.publish log1p uri ⟨vs, some m⟩ (.result f1)).2 = _
    unfold XPSWSResultPublisher.publish
    rw [if_neg hvs, foldl_publish_ws_result]
    rfl
  rw [hstep1]
  dsimp only
  rw [hstep2]
  dsimp only
  refine ⟨rfl, rfl, ?_, hstep3b⟩
  rw [hstep3a, hdrop _ hint, hdrop _ hvf, hdrop _ hif]
  simp [List.length_map]

/-- Claim C3 witness: the concrete scenario Start("scan-1"), frame 0,
frame 1, with two viewers connected: no append and no send for frame 0;
one one-slice append per array entity and exactly two ordered messages per
viewer for frame 1. -/
theorem C3_warmup_scenario_witness :
    (dispatch id "http://tiled"
        ((dispatch id "http://tiled" (initialState [] [1, 2])
            (.start ⟨"scan-1"⟩)).1)
        (.result sampleFrame)).2.1 =
      [.createdDataNodes, .createdTableNode "detected_peaks"] ∧
    (dispatch id "http://tiled"
        ((dispatch id "http://tiled" (initialState [] [1, 2])
            (.start ⟨"scan-1"⟩)).1)
        (.result sampleFrame)).2.2 = [] ∧
    (dispatch id "http://tiled"
        ((dispatch id "http://tiled"
            ((dispatch id "http://tiled" (initialState [] [1, 2])
                (.start ⟨"scan-1"⟩)).1)
            (.result sampleFrame)).1)
        (.result sampleFrame2)).2.1 =
      [.patchedArray "integrated_frames" ⟨2, 1⟩,
       .patchedArray "vfft" ⟨2, 1⟩,
       .patchedArray "ifft" ⟨2, 1⟩,
       .patchedArray "shot_sum" ⟨1, 1⟩,
       .patchedArray "shot_mean" ⟨1, 1⟩,
       .appendedTable "detected_peaks"] ∧
    (dispatch id "http://tiled"
        ((dispatch id "http://tiled"
            ((dispatch id "http://tiled" (initialState [] [1, 2])
                (.start ⟨"scan-1"⟩)).1)
            (.result sampleFrame)).1)
        (.result sampleFrame2)).2.2 =
      [(1, .resultText 1 11 "http://tiled" (some "scan-1")),
       (1, .imageBinary (pack_images id sampleFrame2)),
       (2, .resultText 1 11 "http://tiled" (some "scan-1")),
       (2, .imageBinary (pack_images id sampleFrame2))] :=
  C3_warmup_scenario id "http://tiled" [] ⟨"scan-1"⟩ sampleFrame sampleFrame2
    [1, 2] (by decide) (by decide) (by decide) (by decide)

end XPS
